import Mathlib

/-!
Shallow embedding of `src/constraints.rs` (the in-circuit Groth16 verifier
gadget) and proofs about it.

Modelling conventions:
* Circuit variables are modelled by their assigned values: a `Boolean`
  variable is a `Bool`, a `G1Var` is a value of an abstract type `G1V`, and
  so on.  The external group/pairing capability interface (`PairingVar` from
  `ark-r1cs-std`) is modelled by a record of operations `PairingOps` whose
  fallible operations return `Except SynthesisError _`, exactly mirroring the
  Rust `Result<_, SynthesisError>` signatures.
* `verify_with_processed_vk` can abort the process (Rust `panic`): once via
  the unchecked index `gamma_abc_g1[0]` on an empty vector, and once via the
  `assert!` on the public-input length.  Its result type `RunResult`
  therefore distinguishes ordinary success, a propagated `SynthesisError`,
  and a panic (tagged with which abort fired).
* The public-input variable (`BooleanInputVar`) holds one little-endian bit
  vector per scalar-field input, so it is modelled as `List (List Bool)`.
  `ToBitsGadget::to_bits_le` on such a bit vector returns its bits unchanged.
* `ExactOps n` instantiates the capability interface with the exact
  "arithmetic in the exponent" model over `ZMod n`: group elements are
  exponents, the pairing is multiplication, a multi-pairing accumulates the
  sum of pairwise products, final exponentiation is the identity, and
  equality of target-group elements is decidable equality.  Under this
  instantiation every capability operation is exact, so theorems over
  `ExactOps` state what the gadget computes mathematically.
-/

namespace Groth16Gadget

/-- Model of `ark_relations::gr1cs::SynthesisError` (external crate): the
error kinds the gadget can propagate. -/
inductive SynthesisError where
  | assignmentMissing
  | unsatisfiable
  | malformed
deriving DecidableEq

/-- Which of the two aborts in `verify_with_processed_vk` fired: the
unchecked index `gamma_abc_g1[0]`, or the `assert!` on input length. -/
inductive PanicKind where
  | indexOutOfBounds
  | assertionFailed
deriving DecidableEq

/-- Outcome of running a gadget operation that may panic: an ordinary value,
a propagated `SynthesisError`, or a process abort. -/
inductive RunResult (α : Type) where
  | ok (a : α)
  | err (e : SynthesisError)
  | panic (k : PanicKind)
deriving DecidableEq

/-- Lift an infallible-to-panic computation: a Rust expression of type
`Result<T, SynthesisError>` evaluated in a panicking context. -/
def liftExcept {α : Type} : Except SynthesisError α → RunResult α
  | .ok a => .ok a
  | .error e => .err e

/-- Model of the external group/pairing capability interface
(`P: PairingVar<E>` together with the `CurveVar` operations used by the
gadget).  `G1V`, `G2V`, `GTV` are the circuit-variable types for the two
source groups and the target group; `G1P`, `G2P` are the prepared forms. -/
structure PairingOps (G1V G2V GTV G1P G2P : Type) where
  prepare_g1 : G1V → Except SynthesisError G1P
  prepare_g2 : G2V → Except SynthesisError G2P
  pairing : G1P → G2P → Except SynthesisError GTV
  negate_g2 : G2V → Except SynthesisError G2V
  scalar_mul_le : G1V → List Bool → Except SynthesisError G1V
  add_g1 : G1V → G1V → G1V
  miller_loop : List G1P → List G2P → Except SynthesisError GTV
  final_exponentiation : GTV → Except SynthesisError GTV
  is_eq_gt : GTV → GTV → Except SynthesisError Bool

/-- Struct `ProofVar` (constraints.rs, lines 32-39): the `A`, `B`, `C` elements of
a Groth16 proof as circuit variables. -/
structure ProofVar (G1V G2V : Type) where
  a : G1V
  b : G2V
  c : G1V
deriving DecidableEq

/-- Struct `VerifyingKeyVar` (constraints.rs, lines 46-57). -/
structure VerifyingKeyVar (G1V G2V : Type) where
  alpha_g1 : G1V
  beta_g2 : G2V
  gamma_g2 : G2V
  delta_g2 : G2V
  gamma_abc_g1 : List G1V
deriving DecidableEq

/-- Struct `PreparedVerifyingKeyVar` (constraints.rs, lines 119-128). -/
structure PreparedVerifyingKeyVar (GTV G2P G1V : Type) where
  alpha_g1_beta_g2 : GTV
  gamma_g2_neg_pc : G2P
  delta_g2_neg_pc : G2P
  gamma_abc_g1 : List G1V
deriving DecidableEq

/-- Source `VerifyingKeyVar::prepare` (constraints.rs, lines 61-75); each `?` of
the source is an explicit match on the sub-operation's result. -/
def VerifyingKeyVar.prepare {G1V G2V GTV G1P G2P : Type}
    (self : VerifyingKeyVar G1V G2V) (ops : PairingOps G1V G2V GTV G1P G2P) :
    Except SynthesisError (PreparedVerifyingKeyVar GTV G2P G1V) :=
  match ops.prepare_g1 self.alpha_g1 with
  | .error e => .error e
  | .ok alpha_g1_pc =>
  match ops.prepare_g2 self.beta_g2 with
  | .error e => .error e
  | .ok beta_g2_pc =>
  match ops.pairing alpha_g1_pc beta_g2_pc with
  | .error e => .error e
  | .ok alpha_g1_beta_g2 =>
  match ops.negate_g2 self.gamma_g2 with
  | .error e => .error e
  | .ok gamma_g2_neg =>
  match ops.prepare_g2 gamma_g2_neg with
  | .error e => .error e
  | .ok gamma_g2_neg_pc =>
  match ops.negate_g2 self.delta_g2 with
  | .error e => .error e
  | .ok delta_g2_neg =>
  match ops.prepare_g2 delta_g2_neg with
  | .error e => .error e
  | .ok delta_g2_neg_pc =>
    .ok { alpha_g1_beta_g2 := alpha_g1_beta_g2
          gamma_g2_neg_pc := gamma_g2_neg_pc
          delta_g2_neg_pc := delta_g2_neg_pc
          gamma_abc_g1 := self.gamma_abc_g1 }

/-- The `for (input, b) in public_inputs.by_ref().zip(gamma_abc_g1.iter().skip(1))`
loop of `verify_with_processed_vk` (constraints.rs, lines 259-266): the loop
body calls `input.to_bits_le()?` (the identity on an already-bit-decomposed
input) and `b.scalar_mul_le(...)?`, accumulates into `g_ic` with `+=`, and
increments `input_len` once per iteration. -/
def accumulate_inputs {G1V G2V GTV G1P G2P : Type}
    (ops : PairingOps G1V G2V GTV G1P G2P) :
    G1V → Nat → List (List Bool × G1V) → Except SynthesisError (G1V × Nat)
  | g_ic, input_len, [] => .ok (g_ic, input_len)
  | g_ic, input_len, (input, b) :: rest =>
      match ops.scalar_mul_le b input with
      | .error e => .error e
      | .ok encoded_input_i =>
          accumulate_inputs ops (ops.add_g1 g_ic encoded_input_i) (input_len + 1) rest

/-- State of the `public_inputs` iterator after the zip loop, per Rust `Zip`
semantics: `Zip::next` first advances the left iterator and only then the
right one, so when the left list is strictly longer than the right one the
element that witnessed the right side's exhaustion has already been consumed
(and dropped) by the failed `zip` call. -/
def zipRemaining {α β : Type} : List α → List β → List α
  | [], _ => []
  | _ :: xs, [] => xs
  | _ :: xs, _ :: ys => zipRemaining xs ys

/-- Source `Groth16VerifierGadget::verify_with_processed_vk` (constraints.rs,
lines 248-292).  `circuit_pvk.gamma_abc_g1[0]` panics on an empty vector;
the `assert!(input_len == circuit_pvk.gamma_abc_g1.len() && public_inputs.next().is_none())`
panics when it fails; `public_inputs.next().is_none()` is modelled by
`zipRemaining` emptiness. -/
def verify_with_processed_vk {G1V G2V GTV G1P G2P : Type}
    (ops : PairingOps G1V G2V GTV G1P G2P)
    (circuit_pvk : PreparedVerifyingKeyVar GTV G2P G1V)
    (x : List (List Bool)) (proof : ProofVar G1V G2V) : RunResult Bool :=
  match circuit_pvk.gamma_abc_g1 with
  | [] => .panic .indexOutOfBounds
  | g0 :: tail =>
    match accumulate_inputs ops g0 1 (x.zip tail) with
    | .error e => .err e
    | .ok (g_ic, input_len) =>
      if input_len == circuit_pvk.gamma_abc_g1.length
          && (zipRemaining x tail).isEmpty then
        liftExcept
          (match ops.prepare_g1 proof.a with
           | .error e => .error e
           | .ok proof_a_prep =>
           match ops.prepare_g2 proof.b with
           | .error e => .error e
           | .ok proof_b_prep =>
           match ops.prepare_g1 proof.c with
           | .error e => .error e
           | .ok proof_c_prep =>
           match ops.prepare_g1 g_ic with
           | .error e => .error e
           | .ok g_ic_prep =>
           match ops.miller_loop
               [proof_a_prep, g_ic_prep, proof_c_prep]
               [proof_b_prep, circuit_pvk.gamma_g2_neg_pc, circuit_pvk.delta_g2_neg_pc] with
           | .error e => .error e
           | .ok test_exp =>
           match ops.final_exponentiation test_exp with
           | .error e => .error e
           | .ok test => ops.is_eq_gt test circuit_pvk.alpha_g1_beta_g2)
      else .panic .assertionFailed

/-- Source `Groth16VerifierGadget::verify` (constraints.rs, lines 295-302):
prepares the key and delegates to `verify_with_processed_vk`. -/
def verify {G1V G2V GTV G1P G2P : Type}
    (ops : PairingOps G1V G2V GTV G1P G2P)
    (circuit_vk : VerifyingKeyVar G1V G2V)
    (x : List (List Bool)) (proof : ProofVar G1V G2V) : RunResult Bool :=
  match circuit_vk.prepare ops with
  | .error e => .err e
  | .ok pvk => verify_with_processed_vk ops pvk x proof

/-- Value of a little-endian bit vector, matching the order produced by
`to_bits_le` and consumed by `scalar_mul_le`. -/
def bitsToNat : List Bool → Nat
  | [] => 0
  | b :: rest => (if b then 1 else 0) + 2 * bitsToNat rest

/-- The exact "arithmetic in the exponent" instantiation of the capability
interface over `ZMod n`: every group is `ZMod n` written additively,
prepared forms are the identity, the pairing of `a` and `b` is `a * b`, a
multi-pairing sums the pairwise products, final exponentiation is the
identity, and target-group equality is decidable equality. -/
@[reducible] def ExactOps (n : Nat) :
    PairingOps (ZMod n) (ZMod n) (ZMod n) (ZMod n) (ZMod n) where
  prepare_g1 := fun g => .ok g
  prepare_g2 := fun g => .ok g
  pairing := fun a b => .ok (a * b)
  negate_g2 := fun g => .ok (-g)
  scalar_mul_le := fun g bits => .ok ((bitsToNat bits : ZMod n) * g)
  add_g1 := fun a b => a + b
  miller_loop := fun ps qs =>
    .ok ((ps.zip qs).foldl (fun acc pq => acc + pq.1 * pq.2) 0)
  final_exponentiation := fun t => .ok t
  is_eq_gt := fun a b => .ok (decide (a = b))

/-- Capability instantiation in which every fallible operation fails with
`assignmentMissing`; used to exercise the error-propagation paths. -/
def FailOps : PairingOps Unit Unit Unit Unit Unit where
  prepare_g1 := fun _ => .error .assignmentMissing
  prepare_g2 := fun _ => .error .assignmentMissing
  pairing := fun _ _ => .error .assignmentMissing
  negate_g2 := fun _ => .error .assignmentMissing
  scalar_mul_le := fun _ _ => .error .assignmentMissing
  add_g1 := fun _ _ => ()
  miller_loop := fun _ _ => .error .assignmentMissing
  final_exponentiation := fun _ => .error .assignmentMissing
  is_eq_gt := fun _ _ => .error .assignmentMissing

/-- Modelled from the spec: the native `Proof` type (crate root, not under
`src/`): three elliptic-curve points `A ∈ G1`, `B ∈ G2`, `C ∈ G1` (§3). -/
structure NativeProof (G1 G2 : Type) where
  a : G1
  b : G2
  c : G1
deriving DecidableEq

/-- Modelled from the spec: the native `VerifyingKey` type (crate root, not
under `src/`): `alpha ∈ G1`, `beta, gamma, delta ∈ G2`, and the ordered
sequence `gamma_abc ∈ G1^(l+1)` (§3). -/
structure NativeVerifyingKey (G1 G2 : Type) where
  alpha_g1 : G1
  beta_g2 : G2
  gamma_g2 : G2
  delta_g2 : G2
  gamma_abc_g1 : List G1
deriving DecidableEq

/-- Value-level content of a proof variable allocated from a native proof:
every `ProofVar` allocator (checked or unchecked) assigns the native `a`,
`b`, `c` values to the three circuit variables unchanged
(constraints.rs, lines 165-191 and 414-429). -/
def allocProofVar {G1 G2 : Type} (proof : NativeProof G1 G2) : ProofVar G1 G2 :=
  { a := proof.a, b := proof.b, c := proof.c }

/-- Value-level content of a verifying-key variable allocated from a native
key: every `VerifyingKeyVar` allocator assigns the native field values
unchanged, `gamma_abc_g1` element-wise (constraints.rs, lines 196-245 and
371-406). -/
def allocVkVar {G1 G2 : Type} (vk : NativeVerifyingKey G1 G2) : VerifyingKeyVar G1 G2 :=
  { alpha_g1 := vk.alpha_g1, beta_g2 := vk.beta_g2, gamma_g2 := vk.gamma_g2,
    delta_g2 := vk.delta_g2, gamma_abc_g1 := vk.gamma_abc_g1 }

/-- Modelled from the spec: the native Groth16 verifier (this crate's
excluded native algorithms, not under `src/`; the gadget "mirrors their
verification predicate", §1).  Per §4.3 and §8 it accepts exactly when
`e(A,B) = e(alpha,beta) * e(g_ic,gamma) * e(C,delta)` where
`g_ic = gamma_abc[0] + sum_i input_i * gamma_abc[i+1]`; in the exact
arithmetic-in-the-exponent model over `ZMod n` the pairing `e(P,Q)` is
`P * Q`. -/
def nativeVerify (n : Nat) (vk : NativeVerifyingKey (ZMod n) (ZMod n))
    (inputs : List Nat) (proof : NativeProof (ZMod n) (ZMod n)) : Bool :=
  match vk.gamma_abc_g1 with
  | [] => false
  | g0 :: tail =>
      let g_ic : ZMod n :=
        g0 + ((inputs.zip tail).map fun p => (p.1 : ZMod n) * p.2).sum
      decide (proof.a * proof.b
        = vk.alpha_g1 * vk.beta_g2 + g_ic * vk.gamma_g2 + proof.c * vk.delta_g2)

/-! Allocation layer -/

/-- Enum `AllocationMode` (external `ark-r1cs-std`): the circuit role given to a
newly allocated variable. -/
inductive AllocationMode where
  | Constant
  | Input
  | Witness
deriving DecidableEq

/-- One allocation performed on the constraint-system context: whether the
prime-order-subgroup membership check was omitted for it, and its
allocation mode. -/
structure AllocEvent where
  omit_prime_order_check : Bool
  mode : AllocationMode
deriving DecidableEq

/-- The mutable constraint-system context, abstracted to the sequence of
allocation events performed on it. -/
abbrev ConstraintSystem := List AllocEvent

/-- Model of the external allocator
`CurveVar::new_variable_omit_prime_order_check` (ark-r1cs-std): run the
producer; on failure propagate the error leaving the context unchanged; on
success record one allocation with the subgroup check omitted and assign
the produced value to the new variable. -/
def new_variable_omit_prime_order_check {α : Type} (cs : ConstraintSystem)
    (f : Except SynthesisError α) (mode : AllocationMode) :
    Except SynthesisError α × ConstraintSystem :=
  match f with
  | .error e => (.error e, cs)
  | .ok v => (.ok v, cs ++ [{ omit_prime_order_check := true, mode := mode }])

/-- Model of the external checked default allocator `AllocVar::new_variable`
(ark-r1cs-std): as `new_variable_omit_prime_order_check` but the recorded
allocation keeps the subgroup-membership enforcement. -/
def new_variable_checked {α : Type} (cs : ConstraintSystem)
    (f : Except SynthesisError α) (mode : AllocationMode) :
    Except SynthesisError α × ConstraintSystem :=
  match f with
  | .error e => (.error e, cs)
  | .ok v => (.ok v, cs ++ [{ omit_prime_order_check := false, mode := mode }])

/-- The `gamma_abc_g1.iter().map(|g| new_variable_omit_prime_order_check(..)).collect()`
loop of `new_verification_key_unchecked` (constraints.rs, lines 225-235):
element-wise unchecked allocation, short-circuiting on error. -/
def alloc_vec_omit {α : Type} (cs : ConstraintSystem) (vs : List α)
    (mode : AllocationMode) : Except SynthesisError (List α) × ConstraintSystem :=
  match vs with
  | [] => (.ok [], cs)
  | v :: rest =>
    match new_variable_omit_prime_order_check cs (.ok v) mode with
    | (.error e, cs') => (.error e, cs')
    | (.ok v', cs') =>
      match alloc_vec_omit cs' rest mode with
      | (.error e, cs'') => (.error e, cs'')
      | (.ok rest', cs'') => (.ok (v' :: rest'), cs'')

/-- Element-wise checked allocation loop used by `Vec::new_variable`
(ark-r1cs-std): allocate each entry in order through the checked default
allocator, short-circuiting on error. -/
def alloc_vec_checked {α : Type} (cs : ConstraintSystem) (vs : List α)
    (mode : AllocationMode) : Except SynthesisError (List α) × ConstraintSystem :=
  match vs with
  | [] => (.ok [], cs)
  | v :: rest =>
    match new_variable_checked cs (.ok v) mode with
    | (.error e, cs') => (.error e, cs')
    | (.ok v', cs') =>
      match alloc_vec_checked cs' rest mode with
      | (.error e, cs'') => (.error e, cs'')
      | (.ok rest', cs'') => (.ok (v' :: rest'), cs'')

/-- Model of `Vec::new_variable` (ark-r1cs-std): run the producer, then
allocate each entry in order through the checked default allocator. -/
def vec_new_variable {α : Type} (cs : ConstraintSystem)
    (f : Except SynthesisError (List α)) (mode : AllocationMode) :
    Except SynthesisError (List α) × ConstraintSystem :=
  match f with
  | .error e => (.error e, cs)
  | .ok vs => alloc_vec_checked cs vs mode

/-- Modelled from the spec: the native `PreparedVerifyingKey` (crate root,
not under `src/`): the precomputed pairing product, the prepared negated
second-group elements, and the embedded verifying key whose `gamma_abc_g1`
is read during allocation (constraints.rs, line 351). -/
structure NativePreparedVerifyingKey (G1 G2 GT G2P : Type) where
  alpha_g1_beta_g2 : GT
  gamma_g2_neg_pc : G2P
  delta_g2_neg_pc : G2P
  vk : NativeVerifyingKey G1 G2

/-- Source `Groth16VerifierGadget::new_proof_unchecked` (constraints.rs, lines
165-191): run the deferred producer `f`, then allocate `a`, `b`, `c`
through the omit-prime-order-check allocator. -/
def new_proof_unchecked {G1 G2 : Type} (cs : ConstraintSystem)
    (f : Except SynthesisError (NativeProof G1 G2)) (mode : AllocationMode) :
    Except SynthesisError (ProofVar G1 G2) × ConstraintSystem :=
  match f with
  | .error e => (.error e, cs)
  | .ok proof =>
    match new_variable_omit_prime_order_check cs (.ok proof.a) mode with
    | (.error e, cs1) => (.error e, cs1)
    | (.ok a, cs1) =>
    match new_variable_omit_prime_order_check cs1 (.ok proof.b) mode with
    | (.error e, cs2) => (.error e, cs2)
    | (.ok b, cs2) =>
    match new_variable_omit_prime_order_check cs2 (.ok proof.c) mode with
    | (.error e, cs3) => (.error e, cs3)
    | (.ok c, cs3) => (.ok { a := a, b := b, c := c }, cs3)

/-- Source `Groth16VerifierGadget::new_verification_key_unchecked`
(constraints.rs, lines 196-245): run the deferred producer, then allocate
`alpha_g1`, `beta_g2`, `gamma_g2`, `delta_g2` and each `gamma_abc_g1`
element through the omit-prime-order-check allocator. -/
def new_verification_key_unchecked {G1 G2 : Type} (cs : ConstraintSystem)
    (f : Except SynthesisError (NativeVerifyingKey G1 G2)) (mode : AllocationMode) :
    Except SynthesisError (VerifyingKeyVar G1 G2) × ConstraintSystem :=
  match f with
  | .error e => (.error e, cs)
  | .ok vk =>
    match new_variable_omit_prime_order_check cs (.ok vk.alpha_g1) mode with
    | (.error e, cs1) => (.error e, cs1)
    | (.ok alpha_g1, cs1) =>
    match new_variable_omit_prime_order_check cs1 (.ok vk.beta_g2) mode with
    | (.error e, cs2) => (.error e, cs2)
    | (.ok beta_g2, cs2) =>
    match new_variable_omit_prime_order_check cs2 (.ok vk.gamma_g2) mode with
    | (.error e, cs3) => (.error e, cs3)
    | (.ok gamma_g2, cs3) =>
    match new_variable_omit_prime_order_check cs3 (.ok vk.delta_g2) mode with
    | (.error e, cs4) => (.error e, cs4)
    | (.ok delta_g2, cs4) =>
    match alloc_vec_omit cs4 vk.gamma_abc_g1 mode with
    | (.error e, cs5) => (.error e, cs5)
    | (.ok gamma_abc_g1, cs5) =>
        (.ok { alpha_g1 := alpha_g1, beta_g2 := beta_g2, gamma_g2 := gamma_g2,
               delta_g2 := delta_g2, gamma_abc_g1 := gamma_abc_g1 }, cs5)

/-- Source `AllocVar::new_variable` for `PreparedVerifyingKeyVar` (constraints.rs,
lines 321-362): checked allocation of the pairing product and the two
prepared negated points, then `Vec::new_variable` (checked, element-wise)
for `pvk.vk.gamma_abc_g1`. -/
def PreparedVerifyingKeyVar.new_variable {G1 G2 GT G2P : Type}
    (cs : ConstraintSystem)
    (f : Except SynthesisError (NativePreparedVerifyingKey G1 G2 GT G2P))
    (mode : AllocationMode) :
    Except SynthesisError (PreparedVerifyingKeyVar GT G2P G1) × ConstraintSystem :=
  match f with
  | .error e => (.error e, cs)
  | .ok pvk =>
    match new_variable_checked cs (.ok pvk.alpha_g1_beta_g2) mode with
    | (.error e, cs1) => (.error e, cs1)
    | (.ok alpha_g1_beta_g2, cs1) =>
    match new_variable_checked cs1 (.ok pvk.gamma_g2_neg_pc) mode with
    | (.error e, cs2) => (.error e, cs2)
    | (.ok gamma_g2_neg_pc, cs2) =>
    match new_variable_checked cs2 (.ok pvk.delta_g2_neg_pc) mode with
    | (.error e, cs3) => (.error e, cs3)
    | (.ok delta_g2_neg_pc, cs3) =>
    match vec_new_variable cs3 (.ok pvk.vk.gamma_abc_g1) mode with
    | (.error e, cs4) => (.error e, cs4)
    | (.ok gamma_abc_g1, cs4) =>
        (.ok { alpha_g1_beta_g2 := alpha_g1_beta_g2,
               gamma_g2_neg_pc := gamma_g2_neg_pc,
               delta_g2_neg_pc := delta_g2_neg_pc,
               gamma_abc_g1 := gamma_abc_g1 }, cs4)

/-- Source `AllocVar::new_variable` for `ProofVar` (constraints.rs, lines
414-429): checked allocation of `a`, `b`, `c`. -/
def ProofVar.new_variable {G1 G2 : Type} (cs : ConstraintSystem)
    (f : Except SynthesisError (NativeProof G1 G2)) (mode : AllocationMode) :
    Except SynthesisError (ProofVar G1 G2) × ConstraintSystem :=
  match f with
  | .error e => (.error e, cs)
  | .ok proof =>
    match new_variable_checked cs (.ok proof.a) mode with
    | (.error e, cs1) => (.error e, cs1)
    | (.ok a, cs1) =>
    match new_variable_checked cs1 (.ok proof.b) mode with
    | (.error e, cs2) => (.error e, cs2)
    | (.ok b, cs2) =>
    match new_variable_checked cs2 (.ok proof.c) mode with
    | (.error e, cs3) => (.error e, cs3)
    | (.ok c, cs3) => (.ok { a := a, b := b, c := c }, cs3)

/-- Source `AllocVar::new_variable` for `VerifyingKeyVar` (constraints.rs, lines
371-406): checked allocation of the four group elements, then
`Vec::new_variable` for `gamma_abc_g1`. -/
def VerifyingKeyVar.new_variable {G1 G2 : Type} (cs : ConstraintSystem)
    (f : Except SynthesisError (NativeVerifyingKey G1 G2)) (mode : AllocationMode) :
    Except SynthesisError (VerifyingKeyVar G1 G2) × ConstraintSystem :=
  match f with
  | .error e => (.error e, cs)
  | .ok vk =>
    match new_variable_checked cs (.ok vk.alpha_g1) mode with
    | (.error e, cs1) => (.error e, cs1)
    | (.ok alpha_g1, cs1) =>
    match new_variable_checked cs1 (.ok vk.beta_g2) mode with
    | (.error e, cs2) => (.error e, cs2)
    | (.ok beta_g2, cs2) =>
    match new_variable_checked cs2 (.ok vk.gamma_g2) mode with
    | (.error e, cs3) => (.error e, cs3)
    | (.ok gamma_g2, cs3) =>
    match new_variable_checked cs3 (.ok vk.delta_g2) mode with
    | (.error e, cs4) => (.error e, cs4)
    | (.ok delta_g2, cs4) =>
    match vec_new_variable cs4 (.ok vk.gamma_abc_g1) mode with
    | (.error e, cs5) => (.error e, cs5)
    | (.ok gamma_abc_g1, cs5) =>
        (.ok { alpha_g1 := alpha_g1, beta_g2 := beta_g2, gamma_g2 := gamma_g2,
               delta_g2 := delta_g2, gamma_abc_g1 := gamma_abc_g1 }, cs5)

/-! Encoding support -/

/-- Model of the external per-element encoders used by the verifying-key
encodings: the canonical byte and sponge-field-element encodings of `G1`
and `G2` variables (`ToBytesGadget` and `AbsorbGadget` of the external
crates). -/
structure EncOps (G1V G2V Byte FElem : Type) where
  g1_to_bytes_le : G1V → Except SynthesisError (List Byte)
  g2_to_bytes_le : G2V → Except SynthesisError (List Byte)
  g1_to_sponge_field_elements : G1V → Except SynthesisError (List FElem)
  g2_to_sponge_field_elements : G2V → Except SynthesisError (List FElem)

/-- The `for g in &self.gamma_abc_g1 { bytes.extend_from_slice(&g.to_bytes_le()?) }`
and `gamma_abc_g1.iter().try_for_each(...)` loops: extend the accumulated
sequence with each element's encoding, short-circuiting on error. -/
def extend_each {α γ : Type} (enc : γ → Except SynthesisError (List α)) :
    List α → List γ → Except SynthesisError (List α)
  | acc, [] => .ok acc
  | acc, g :: rest =>
      match enc g with
      | .error e => .error e
      | .ok bs => extend_each enc (acc ++ bs) rest

/-- Source `ToBytesGadget::to_bytes_le` for `VerifyingKeyVar` (constraints.rs,
lines 439-449). -/
def VerifyingKeyVar.to_bytes_le {G1V G2V Byte FElem : Type}
    (self : VerifyingKeyVar G1V G2V) (enc : EncOps G1V G2V Byte FElem) :
    Except SynthesisError (List Byte) :=
  match enc.g1_to_bytes_le self.alpha_g1 with
  | .error e => .error e
  | .ok b1 =>
  match enc.g2_to_bytes_le self.beta_g2 with
  | .error e => .error e
  | .ok b2 =>
  match enc.g2_to_bytes_le self.gamma_g2 with
  | .error e => .error e
  | .ok b3 =>
  match enc.g2_to_bytes_le self.delta_g2 with
  | .error e => .error e
  | .ok b4 =>
      extend_each enc.g1_to_bytes_le (b1 ++ b2 ++ b3 ++ b4) self.gamma_abc_g1

/-- Source `AbsorbGadget::to_sponge_field_elements` for `VerifyingKeyVar`
(constraints.rs, lines 97-109). -/
def VerifyingKeyVar.to_sponge_field_elements {G1V G2V Byte FElem : Type}
    (self : VerifyingKeyVar G1V G2V) (enc : EncOps G1V G2V Byte FElem) :
    Except SynthesisError (List FElem) :=
  match enc.g1_to_sponge_field_elements self.alpha_g1 with
  | .error e => .error e
  | .ok f1 =>
  match enc.g2_to_sponge_field_elements self.beta_g2 with
  | .error e => .error e
  | .ok f2 =>
  match enc.g2_to_sponge_field_elements self.gamma_g2 with
  | .error e => .error e
  | .ok f3 =>
  match enc.g2_to_sponge_field_elements self.delta_g2 with
  | .error e => .error e
  | .ok f4 =>
      extend_each enc.g1_to_sponge_field_elements (f1 ++ f2 ++ f3 ++ f4) self.gamma_abc_g1

/-! Helper lemmas about the exact model -/

lemma liftExcept_ne_panic {α : Type} (x : Except SynthesisError α) (k : PanicKind) :
    liftExcept x ≠ RunResult.panic k := by
  cases x <;> simp [liftExcept]

/-- The input-accumulation loop over the exact model: it never fails, adds
up `bitsToNat input * b` over the zipped pairs, and counts one per
iteration. -/
lemma accumulate_inputs_exact (n : Nat) (l : List (List Bool × ZMod n)) :
    ∀ (g : ZMod n) (k : Nat),
      accumulate_inputs (ExactOps n) g k l
        = .ok (g + (l.map fun p => (bitsToNat p.1 : ZMod n) * p.2).sum, k + l.length) := by
  induction l with
  | nil => intro g k; simp [accumulate_inputs]
  | cons p rest ih =>
      intro g k
      obtain ⟨input, b⟩ := p
      simp only [accumulate_inputs, List.map_cons, List.sum_cons, List.length_cons]
      rw [ih, add_assoc]
      have hk : k + 1 + rest.length = k + (rest.length + 1) := by omega
      rw [hk]

/-- When the public-input list is at most one element longer than the tail
of `gamma_abc_g1`, the whole input iterator has been consumed after the zip
loop (Rust's `Zip::next` consumes the extra element that discovers the
right-hand side's exhaustion). -/
lemma zipRemaining_eq_nil {α β : Type} :
    ∀ (xs : List α) (ys : List β), xs.length ≤ ys.length + 1 →
      zipRemaining xs ys = [] := by
  intro xs
  induction xs with
  | nil => intro ys _; rfl
  | cons x xs ih =>
      intro ys h
      cases ys with
      | nil =>
          simp only [List.length_cons, List.length_nil] at h
          have : xs.length = 0 := by omega
          simp [zipRemaining, List.eq_nil_of_length_eq_zero this]
      | cons y ys =>
          simp only [List.length_cons] at h
          exact ih ys (by omega)

/-- Element-wise unchecked allocation of a vector: never fails and records
one omitted-check event per element. -/
lemma alloc_vec_omit_events {α : Type} (mode : AllocationMode) :
    ∀ (vs : List α) (cs : ConstraintSystem),
      alloc_vec_omit cs vs mode
        = (.ok vs, cs ++ List.replicate vs.length
            { omit_prime_order_check := true, mode := mode }) := by
  intro vs
  induction vs with
  | nil => intro cs; simp [alloc_vec_omit]
  | cons v rest ih =>
      intro cs
      simp [alloc_vec_omit, new_variable_omit_prime_order_check, ih,
        List.replicate_succ]

/-- Element-wise checked allocation of a vector: never fails and records
one checked event per element. -/
lemma alloc_vec_checked_events {α : Type} (mode : AllocationMode) :
    ∀ (vs : List α) (cs : ConstraintSystem),
      alloc_vec_checked cs vs mode
        = (.ok vs, cs ++ List.replicate vs.length
            { omit_prime_order_check := false, mode := mode }) := by
  intro vs
  induction vs with
  | nil => intro cs; simp [alloc_vec_checked]
  | cons v rest ih =>
      intro cs
      simp [alloc_vec_checked, new_variable_checked, ih,
        List.replicate_succ]

/-- The encoding-extension loop applied to pure per-element encoders
appends the concatenation of the element encodings. -/
lemma extend_each_pure {α γ : Type} (enc : γ → List α) :
    ∀ (gs : List γ) (acc : List α),
      extend_each (fun g => .ok (enc g)) acc gs = .ok (acc ++ (gs.map enc).flatten) := by
  intro gs
  induction gs with
  | nil => intro acc; simp [extend_each]
  | cons g rest ih => intro acc; simp [extend_each, ih]

/-- Closed-form evaluation of `verify_with_processed_vk` over the exact
model when the public-input vector has the contractual length
`len(gamma_abc_g1) - 1`. -/
lemma vwpv_exact_eq (n : Nat)
    (pvk : PreparedVerifyingKeyVar (ZMod n) (ZMod n) (ZMod n))
    (x : List (List Bool)) (proof : ProofVar (ZMod n) (ZMod n))
    (g0 : ZMod n) (tail : List (ZMod n))
    (hg : pvk.gamma_abc_g1 = g0 :: tail) (hlen : x.length = tail.length) :
    verify_with_processed_vk (ExactOps n) pvk x proof
      = .ok (decide (0 + proof.a * proof.b
          + (g0 + ((x.zip tail).map fun p => (bitsToNat p.1 : ZMod n) * p.2).sum)
              * pvk.gamma_g2_neg_pc
          + proof.c * pvk.delta_g2_neg_pc = pvk.alpha_g1_beta_g2)) := by
  obtain ⟨ab, gn, dn, abc⟩ := pvk
  simp only at hg
  subst hg
  have hzl : (x.zip tail).length = tail.length := by
    rw [List.length_zip, hlen, Nat.min_self]
  have hrem : zipRemaining x tail = [] :=
    zipRemaining_eq_nil x tail (by omega)
  simp [verify_with_processed_vk, accumulate_inputs_exact, hzl, hrem,
    Nat.add_comm 1 tail.length, liftExcept]

/-! Claim theorems -/

/-- C1: over the exact pairing model, the circuit boolean returned by
`verify` equals the native Groth16 verification outcome on the same (key,
proof, public-input) triple of contractual input length.  In particular the
boolean is `true` — so a surrounding circuit that constrains it to `true`
is satisfiable — on every triple the native verifier accepts, hence on
every valid triple produced by the native prover, and it is `false` on
every triple the native verifier rejects.  The circuit's input variable
carries the little-endian bit decompositions of the native inputs. -/
theorem verify_agrees_with_native_verifier (n : Nat)
    (nvk : NativeVerifyingKey (ZMod n) (ZMod n))
    (np : NativeProof (ZMod n) (ZMod n)) (x : List (List Bool))
    (hlen : x.length + 1 = nvk.gamma_abc_g1.length) :
    verify (ExactOps n) (allocVkVar nvk) x (allocProofVar np)
      = .ok (nativeVerify n nvk (x.map bitsToNat) np) := by
  obtain ⟨alpha, beta, gamma, delta, abc⟩ := nvk
  obtain ⟨pa, pb, pc⟩ := np
  cases abc with
  | nil => simp at hlen
  | cons g0 tail =>
      simp only [NativeVerifyingKey.gamma_abc_g1, List.length_cons] at hlen
      have hxlen : x.length = tail.length := by omega
      have hprep : (allocVkVar (NativeVerifyingKey.mk alpha beta gamma delta
            (g0 :: tail))).prepare (ExactOps n)
          = .ok { alpha_g1_beta_g2 := alpha * beta, gamma_g2_neg_pc := -gamma,
                  delta_g2_neg_pc := -delta, gamma_abc_g1 := g0 :: tail } := rfl
      unfold verify
      rw [hprep]
      dsimp only
      rw [vwpv_exact_eq n _ x (allocProofVar (NativeProof.mk pa pb pc)) g0 tail rfl hxlen]
      unfold nativeVerify
      simp only [allocProofVar, NativeProof.a, NativeProof.b, NativeProof.c]
      have hsum : (((x.map bitsToNat).zip tail).map fun p => (p.1 : ZMod n) * p.2).sum
          = ((x.zip tail).map fun p => (bitsToNat p.1 : ZMod n) * p.2).sum := by
        rw [List.zip_map_left, List.map_map]
        rfl
      rw [RunResult.ok.injEq, hsum, decide_eq_decide]
      constructor <;> intro h <;> linear_combination h

/-- C3: `verify` and `verify_with_processed_vk ∘ prepare` agree on every
input: whenever `prepare` succeeds, `verify` returns exactly what
`verify_with_processed_vk` returns on the prepared key, and whenever
`prepare` fails, `verify` returns that same error. -/
theorem verify_agrees_with_prepare_then_processed {G1V G2V GTV G1P G2P : Type}
    (ops : PairingOps G1V G2V GTV G1P G2P) (circuit_vk : VerifyingKeyVar G1V G2V)
    (x : List (List Bool)) (proof : ProofVar G1V G2V) :
    (∀ pvk, circuit_vk.prepare ops = .ok pvk →
        verify ops circuit_vk x proof = verify_with_processed_vk ops pvk x proof)
    ∧ (∀ e, circuit_vk.prepare ops = .error e →
        verify ops circuit_vk x proof = .err e) := by
  constructor
  · intro pvk h
    unfold verify
    rw [h]
  · intro e h
    unfold verify
    rw [h]

/-- C4: on inputs of the contractual length, `verify_with_processed_vk`
over the exact model returns exactly the circuit equality of
`final_exponentiation (miller_loop [(A, B), (g_ic, gamma_neg), (C, delta_neg)])`
with `alpha_g1_beta_g2` (prepared forms are the identity in the exact
model), and that boolean is `true` iff Groth16's equation
`e(A,B) = e(alpha,beta) * e(g_ic,gamma) * e(C,delta)` holds, where `gamma`
and `delta` are the negations of the stored negated elements. -/
theorem verify_with_processed_vk_single_multi_pairing (n : Nat)
    (pvk : PreparedVerifyingKeyVar (ZMod n) (ZMod n) (ZMod n))
    (x : List (List Bool)) (proof : ProofVar (ZMod n) (ZMod n))
    (g0 : ZMod n) (tail : List (ZMod n)) (g_ic : ZMod n)
    (hg : pvk.gamma_abc_g1 = g0 :: tail) (hlen : x.length = tail.length)
    (hgic : g_ic = g0 + ((x.zip tail).map fun p => (bitsToNat p.1 : ZMod n) * p.2).sum) :
    (verify_with_processed_vk (ExactOps n) pvk x proof
      = liftExcept
          (match (ExactOps n).miller_loop [proof.a, g_ic, proof.c]
              [proof.b, pvk.gamma_g2_neg_pc, pvk.delta_g2_neg_pc] with
           | .error e => .error e
           | .ok test_exp =>
           match (ExactOps n).final_exponentiation test_exp with
           | .error e => .error e
           | .ok test => (ExactOps n).is_eq_gt test pvk.alpha_g1_beta_g2))
    ∧ (verify_with_processed_vk (ExactOps n) pvk x proof = .ok true ↔
        proof.a * proof.b
          = pvk.alpha_g1_beta_g2 + g_ic * -pvk.gamma_g2_neg_pc
            + proof.c * -pvk.delta_g2_neg_pc) := by
  subst hgic
  rw [vwpv_exact_eq n pvk x proof g0 tail hg hlen]
  constructor
  · simp [liftExcept]
  · rw [RunResult.ok.injEq, decide_eq_true_eq]
    constructor <;> intro h <;> linear_combination h

/-- C5: the input-accumulation loop of `verify_with_processed_vk`, run over
the exact model from `g_ic = gamma_abc_g1[0]` and `input_len = 1`, returns
`gamma_abc_g1[0] + sum_i input_i * gamma_abc_g1[i+1]` — each public input
taken in order, as the little-endian value `bitsToNat` of its bit
decomposition, multiplied by the matching entry of `gamma_abc_g1.tail` —
with the count increased once per consumed input. -/
theorem g_ic_is_constant_plus_input_combination (n : Nat) (g0 : ZMod n)
    (tail : List (ZMod n)) (x : List (List Bool)) :
    accumulate_inputs (ExactOps n) g0 1 (x.zip tail)
      = .ok (g0 + ((x.zip tail).map fun p => (bitsToNat p.1 : ZMod n) * p.2).sum,
          1 + (x.zip tail).length) := by
  rw [accumulate_inputs_exact]

/-- C10: `verify_with_processed_vk` unconditionally indexes
`gamma_abc_g1[0]`: on a prepared key with an empty `gamma_abc_g1` it panics
with an out-of-bounds index (it does not return a synthesis error), and
when `gamma_abc_g1` is non-empty that abort is unreachable (any panic then
is the input-length assertion, not the index). -/
theorem empty_gamma_abc_index_panic {G1V G2V GTV G1P G2P : Type}
    (ops : PairingOps G1V G2V GTV G1P G2P)
    (pvk : PreparedVerifyingKeyVar GTV G2P G1V)
    (x : List (List Bool)) (proof : ProofVar G1V G2V) :
    (pvk.gamma_abc_g1 = [] →
      verify_with_processed_vk ops pvk x proof = .panic .indexOutOfBounds)
    ∧ (pvk.gamma_abc_g1 ≠ [] →
      verify_with_processed_vk ops pvk x proof ≠ .panic .indexOutOfBounds) := by
  constructor
  · intro h
    unfold verify_with_processed_vk
    rw [h]
  · intro h
    unfold verify_with_processed_vk
    split
    · exact absurd (by assumption) h
    · split
      · simp
      · split
        · exact liftExcept_ne_panic _ _
        · simp

/-- C2 is violated by the code: `gamma_abc_g1` has length 2, so exactly one
public input is expected, yet a two-element public-input vector is NOT
rejected — Rust's `Zip::next` consumes the extra element while discovering
that `gamma_abc_g1.iter().skip(1)` is exhausted, so the `assert!` sees
`input_len == len` and an empty iterator and passes, and the call returns a
verification boolean computed from the truncated input (second and third
conjuncts: the two-input call returns exactly what the correctly-sized
one-input call returns, here `true`).  The first conjunct shows the same
behaviour end-to-end through `verify`. -/
theorem extra_public_input_silently_truncated :
    verify (ExactOps 5)
        { alpha_g1 := 2, beta_g2 := 2, gamma_g2 := 4, delta_g2 := 0,
          gamma_abc_g1 := [1, 3] }
        [[false, true], [true]] { a := 1, b := 2, c := 0 } = .ok true
    ∧ verify_with_processed_vk (ExactOps 5)
        { alpha_g1_beta_g2 := 4, gamma_g2_neg_pc := 1, delta_g2_neg_pc := 0,
          gamma_abc_g1 := [1, 3] }
        [[false, true], [true]] { a := 1, b := 2, c := 0 } = .ok true
    ∧ verify_with_processed_vk (ExactOps 5)
        { alpha_g1_beta_g2 := 4, gamma_g2_neg_pc := 1, delta_g2_neg_pc := 0,
          gamma_abc_g1 := [1, 3] }
        [[false, true]] { a := 1, b := 2, c := 0 } = .ok true := by
  decide

/-- C6: whenever `prepare` succeeds, the returned prepared key holds the
pairing of the prepared `alpha` and `beta`, the prepared negated `gamma`
and `delta`, and an unmodified copy of `gamma_abc_g1`; the `Except` result
type itself guarantees that on failure of any sub-step no partial result is
returned. -/
theorem prepare_fields_correct {G1V G2V GTV G1P G2P : Type}
    (ops : PairingOps G1V G2V GTV G1P G2P)
    (vk : VerifyingKeyVar G1V G2V) (pvk : PreparedVerifyingKeyVar GTV G2P G1V)
    (h : vk.prepare ops = .ok pvk) :
    pvk.gamma_abc_g1 = vk.gamma_abc_g1
    ∧ (∃ alpha_pc beta_pc, ops.prepare_g1 vk.alpha_g1 = .ok alpha_pc
        ∧ ops.prepare_g2 vk.beta_g2 = .ok beta_pc
        ∧ ops.pairing alpha_pc beta_pc = .ok pvk.alpha_g1_beta_g2)
    ∧ (∃ gamma_neg, ops.negate_g2 vk.gamma_g2 = .ok gamma_neg
        ∧ ops.prepare_g2 gamma_neg = .ok pvk.gamma_g2_neg_pc)
    ∧ (∃ delta_neg, ops.negate_g2 vk.delta_g2 = .ok delta_neg
        ∧ ops.prepare_g2 delta_neg = .ok pvk.delta_g2_neg_pc) := by
  unfold VerifyingKeyVar.prepare at h
  split at h
  · exact absurd h (by simp)
  next alpha_pc h1 =>
    split at h
    · exact absurd h (by simp)
    next beta_pc h2 =>
      split at h
      · exact absurd h (by simp)
      next ab h3 =>
        split at h
        · exact absurd h (by simp)
        next gamma_neg h4 =>
          split at h
          · exact absurd h (by simp)
          next gn h5 =>
            split at h
            · exact absurd h (by simp)
            next delta_neg h6 =>
              split at h
              · exact absurd h (by simp)
              next dn h7 =>
                rw [Except.ok.injEq] at h
                subst h
                exact ⟨rfl, ⟨alpha_pc, beta_pc, h1, h2, h3⟩,
                  ⟨gamma_neg, h4, h5⟩, ⟨delta_neg, h6, h7⟩⟩

/-- C7: `new_proof_unchecked` and `new_verification_key_unchecked` record
every group-element allocation of the Proof (three elements) and of the
VerifyingKey (four elements plus each `gamma_abc_g1` entry) with the
prime-order-subgroup check omitted, and assign the native values unchanged;
allocating a `PreparedVerifyingKeyVar` from a native prepared key records
every field allocation — the pairing product, the two prepared negated
points, and each `gamma_abc_g1` entry — through the checked default
path. -/
theorem unchecked_allocators_omit_subgroup_check {G1 G2 GT G2P : Type}
    (p : NativeProof G1 G2) (vk : NativeVerifyingKey G1 G2)
    (pvk : NativePreparedVerifyingKey G1 G2 GT G2P)
    (cs : ConstraintSystem) (mode : AllocationMode) :
    new_proof_unchecked cs (.ok p) mode
      = (.ok (allocProofVar p),
         cs ++ [{ omit_prime_order_check := true, mode := mode },
                { omit_prime_order_check := true, mode := mode },
                { omit_prime_order_check := true, mode := mode }])
    ∧ new_verification_key_unchecked cs (.ok vk) mode
      = (.ok (allocVkVar vk),
         cs ++ [{ omit_prime_order_check := true, mode := mode },
                { omit_prime_order_check := true, mode := mode },
                { omit_prime_order_check := true, mode := mode },
                { omit_prime_order_check := true, mode := mode }]
            ++ List.replicate vk.gamma_abc_g1.length
                { omit_prime_order_check := true, mode := mode })
    ∧ PreparedVerifyingKeyVar.new_variable cs (.ok pvk) mode
      = (.ok { alpha_g1_beta_g2 := pvk.alpha_g1_beta_g2,
               gamma_g2_neg_pc := pvk.gamma_g2_neg_pc,
               delta_g2_neg_pc := pvk.delta_g2_neg_pc,
               gamma_abc_g1 := pvk.vk.gamma_abc_g1 },
         cs ++ [{ omit_prime_order_check := false, mode := mode },
                { omit_prime_order_check := false, mode := mode },
                { omit_prime_order_check := false, mode := mode }]
            ++ List.replicate pvk.vk.gamma_abc_g1.length
                { omit_prime_order_check := false, mode := mode }) := by
  refine ⟨?_, ?_, ?_⟩
  · simp [new_proof_unchecked, new_variable_omit_prime_order_check, allocProofVar]
  · simp [new_verification_key_unchecked, new_variable_omit_prime_order_check,
      alloc_vec_omit_events, allocVkVar]
  · simp [PreparedVerifyingKeyVar.new_variable, new_variable_checked,
      vec_new_variable, alloc_vec_checked_events]

/-- C8: for every allocation operation — proof, verifying key, or prepared
verifying key, through the checked default or the unchecked path — a
failing deferred producer propagates its error to the caller and allocates
nothing: the constraint-system context is returned unchanged. -/
theorem producer_failure_propagates_without_allocation {G1 G2 GT G2P : Type}
    (cs : ConstraintSystem) (e : SynthesisError) (mode : AllocationMode) :
    @new_proof_unchecked G1 G2 cs (.error e) mode = (.error e, cs)
    ∧ @new_verification_key_unchecked G1 G2 cs (.error e) mode = (.error e, cs)
    ∧ @PreparedVerifyingKeyVar.new_variable G1 G2 GT G2P cs (.error e) mode
        = (.error e, cs)
    ∧ @ProofVar.new_variable G1 G2 cs (.error e) mode = (.error e, cs)
    ∧ @VerifyingKeyVar.new_variable G1 G2 cs (.error e) mode = (.error e, cs) :=
  ⟨rfl, rfl, rfl, rfl, rfl⟩

/-- C9: with the external per-element encoders modelled as (deterministic)
canonical encoding functions, both verifying-key encodings are exactly the
concatenation, in the fixed field order `alpha_g1`, `beta_g2`, `gamma_g2`,
`delta_g2`, then each `gamma_abc_g1` element in sequence order, of the
sub-elements' own encodings, with no other data interleaved; determinism —
encoding the same variable twice yields the identical sequence — is
definitional, as the final two conjuncts record. -/
theorem vk_encodings_concatenate_in_field_order {G1V G2V Byte FElem : Type}
    (encA : G1V → List Byte) (encB : G2V → List Byte)
    (sfeA : G1V → List FElem) (sfeB : G2V → List FElem)
    (vk : VerifyingKeyVar G1V G2V) :
    vk.to_bytes_le (EncOps.mk (fun g => .ok (encA g)) (fun g => .ok (encB g))
        (fun g => .ok (sfeA g)) (fun g => .ok (sfeB g)))
      = .ok (encA vk.alpha_g1 ++ encB vk.beta_g2 ++ encB vk.gamma_g2
          ++ encB vk.delta_g2 ++ (vk.gamma_abc_g1.map encA).flatten)
    ∧ vk.to_sponge_field_elements (EncOps.mk (fun g => .ok (encA g))
        (fun g => .ok (encB g)) (fun g => .ok (sfeA g)) (fun g => .ok (sfeB g)))
      = .ok (sfeA vk.alpha_g1 ++ sfeB vk.beta_g2 ++ sfeB vk.gamma_g2
          ++ sfeB vk.delta_g2 ++ (vk.gamma_abc_g1.map sfeA).flatten)
    ∧ vk.to_bytes_le (EncOps.mk (fun g => .ok (encA g)) (fun g => .ok (encB g))
        (fun g => .ok (sfeA g)) (fun g => .ok (sfeB g)))
      = vk.to_bytes_le (EncOps.mk (fun g => .ok (encA g)) (fun g => .ok (encB g))
        (fun g => .ok (sfeA g)) (fun g => .ok (sfeB g)))
    ∧ vk.to_sponge_field_elements (EncOps.mk (fun g => .ok (encA g))
        (fun g => .ok (encB g)) (fun g => .ok (sfeA g)) (fun g => .ok (sfeB g)))
      = vk.to_sponge_field_elements (EncOps.mk (fun g => .ok (encA g))
        (fun g => .ok (encB g)) (fun g => .ok (sfeA g)) (fun g => .ok (sfeB g))) := by
  refine ⟨?_, ?_, rfl, rfl⟩
  · simp [VerifyingKeyVar.to_bytes_le, extend_each_pure, List.append_assoc]
  · simp [VerifyingKeyVar.to_sponge_field_elements, extend_each_pure, List.append_assoc]

/-! Witnesses -/

/-- Witness for C1 at a concrete key, proof and input over `ZMod 7`. -/
theorem verify_agrees_with_native_verifier_witness :
    ([[true, true]] : List (List Bool)).length + 1
        = ({ alpha_g1 := 3, beta_g2 := 2, gamma_g2 := 1, delta_g2 := 4,
             gamma_abc_g1 := [2, 5] } :
            NativeVerifyingKey (ZMod 7) (ZMod 7)).gamma_abc_g1.length
    ∧ verify (ExactOps 7)
        (allocVkVar { alpha_g1 := 3, beta_g2 := 2, gamma_g2 := 1, delta_g2 := 4,
                      gamma_abc_g1 := [2, 5] })
        [[true, true]] (allocProofVar { a := 2, b := 3, c := 1 })
      = .ok (nativeVerify 7
          { alpha_g1 := 3, beta_g2 := 2, gamma_g2 := 1, delta_g2 := 4,
            gamma_abc_g1 := [2, 5] }
          ([[true, true]].map bitsToNat) { a := 2, b := 3, c := 1 }) :=
  ⟨rfl, verify_agrees_with_native_verifier 7
    { alpha_g1 := 3, beta_g2 := 2, gamma_g2 := 1, delta_g2 := 4, gamma_abc_g1 := [2, 5] }
    { a := 2, b := 3, c := 1 } [[true, true]] rfl⟩

/-- Witness for C3: a successful preparation over `ZMod 5` and a failing
preparation over the all-failing capability instantiation. -/
theorem verify_agrees_with_prepare_then_processed_witness :
    verify (ExactOps 5)
        { alpha_g1 := 2, beta_g2 := 3, gamma_g2 := 4, delta_g2 := 1, gamma_abc_g1 := [1, 2] }
        [[true]] { a := 1, b := 1, c := 1 }
      = verify_with_processed_vk (ExactOps 5)
          { alpha_g1_beta_g2 := 1, gamma_g2_neg_pc := 1, delta_g2_neg_pc := 4,
            gamma_abc_g1 := [1, 2] }
          [[true]] { a := 1, b := 1, c := 1 }
    ∧ verify FailOps
        { alpha_g1 := (), beta_g2 := (), gamma_g2 := (), delta_g2 := (), gamma_abc_g1 := [] }
        [] { a := (), b := (), c := () }
      = .err .assignmentMissing :=
  ⟨(verify_agrees_with_prepare_then_processed (ExactOps 5)
      { alpha_g1 := 2, beta_g2 := 3, gamma_g2 := 4, delta_g2 := 1, gamma_abc_g1 := [1, 2] }
      [[true]] { a := 1, b := 1, c := 1 }).1
      { alpha_g1_beta_g2 := 1, gamma_g2_neg_pc := 1, delta_g2_neg_pc := 4,
        gamma_abc_g1 := [1, 2] } rfl,
   (verify_agrees_with_prepare_then_processed FailOps
      { alpha_g1 := (), beta_g2 := (), gamma_g2 := (), delta_g2 := (), gamma_abc_g1 := [] }
      [] { a := (), b := (), c := () }).2 .assignmentMissing rfl⟩

/-- Witness for C4 at a concrete prepared key, proof and input over
`ZMod 5` (the one-input case with `g_ic = 1 + 2 * 3 = 2`). -/
theorem verify_with_processed_vk_single_multi_pairing_witness :
    ({ alpha_g1_beta_g2 := 4, gamma_g2_neg_pc := 1, delta_g2_neg_pc := 0,
       gamma_abc_g1 := [1, 3] } :
        PreparedVerifyingKeyVar (ZMod 5) (ZMod 5) (ZMod 5)).gamma_abc_g1 = 1 :: [3]
    ∧ ([[false, true]] : List (List Bool)).length = [(3 : ZMod 5)].length
    ∧ (2 : ZMod 5) = 1 + (([[false, true]].zip [(3 : ZMod 5)]).map
        fun p => (bitsToNat p.1 : ZMod 5) * p.2).sum
    ∧ (verify_with_processed_vk (ExactOps 5)
          { alpha_g1_beta_g2 := 4, gamma_g2_neg_pc := 1, delta_g2_neg_pc := 0,
            gamma_abc_g1 := [1, 3] }
          [[false, true]] { a := 1, b := 2, c := 0 } = .ok true ↔
        (1 : ZMod 5) * 2 = 4 + 2 * -1 + 0 * -0) :=
  ⟨rfl, rfl, by decide,
   (verify_with_processed_vk_single_multi_pairing 5
      { alpha_g1_beta_g2 := 4, gamma_g2_neg_pc := 1, delta_g2_neg_pc := 0,
        gamma_abc_g1 := [1, 3] }
      [[false, true]] { a := 1, b := 2, c := 0 } 1 [3] 2 rfl rfl (by decide)).2⟩

/-- Witness for C6: preparation of a concrete key over `ZMod 7`. -/
theorem prepare_fields_correct_witness :
    ({ alpha_g1 := 2, beta_g2 := 3, gamma_g2 := 4, delta_g2 := 5, gamma_abc_g1 := [1, 2] } :
        VerifyingKeyVar (ZMod 7) (ZMod 7)).prepare (ExactOps 7)
      = .ok { alpha_g1_beta_g2 := 6, gamma_g2_neg_pc := 3, delta_g2_neg_pc := 2,
              gamma_abc_g1 := [1, 2] }
    ∧ (([1, 2] : List (ZMod 7)) = [1, 2]
       ∧ (∃ alpha_pc beta_pc, (ExactOps 7).prepare_g1 2 = .ok alpha_pc
            ∧ (ExactOps 7).prepare_g2 3 = .ok beta_pc
            ∧ (ExactOps 7).pairing alpha_pc beta_pc = .ok 6)
       ∧ (∃ gamma_neg, (ExactOps 7).negate_g2 4 = .ok gamma_neg
            ∧ (ExactOps 7).prepare_g2 gamma_neg = .ok 3)
       ∧ (∃ delta_neg, (ExactOps 7).negate_g2 5 = .ok delta_neg
            ∧ (ExactOps 7).prepare_g2 delta_neg = .ok 2)) :=
  ⟨rfl,
   prepare_fields_correct (ExactOps 7)
     { alpha_g1 := 2, beta_g2 := 3, gamma_g2 := 4, delta_g2 := 5, gamma_abc_g1 := [1, 2] }
     { alpha_g1_beta_g2 := 6, gamma_g2_neg_pc := 3, delta_g2_neg_pc := 2,
       gamma_abc_g1 := [1, 2] } rfl⟩

/-- Witness for C10: the empty-`gamma_abc_g1` call panics with the index
abort; a non-empty call never produces that abort. -/
theorem empty_gamma_abc_index_panic_witness :
    verify_with_processed_vk (ExactOps 3)
        { alpha_g1_beta_g2 := 0, gamma_g2_neg_pc := 0, delta_g2_neg_pc := 0,
          gamma_abc_g1 := [] }
        [] { a := 0, b := 0, c := 0 } = .panic .indexOutOfBounds
    ∧ verify_with_processed_vk (ExactOps 3)
        { alpha_g1_beta_g2 := 0, gamma_g2_neg_pc := 0, delta_g2_neg_pc := 0,
          gamma_abc_g1 := [1] }
        [] { a := 0, b := 0, c := 0 } ≠ .panic .indexOutOfBounds :=
  ⟨(empty_gamma_abc_index_panic (ExactOps 3)
      { alpha_g1_beta_g2 := 0, gamma_g2_neg_pc := 0, delta_g2_neg_pc := 0,
        gamma_abc_g1 := [] } [] { a := 0, b := 0, c := 0 }).1 rfl,
   (empty_gamma_abc_index_panic (ExactOps 3)
      { alpha_g1_beta_g2 := 0, gamma_g2_neg_pc := 0, delta_g2_neg_pc := 0,
        gamma_abc_g1 := [1] } [] { a := 0, b := 0, c := 0 }).2 (by decide)⟩

end Groth16Gadget
